import Mathlib

/-!
Verification of the trade-execution safety gate of this n8n fork.

The definitions below are a shallow embedding of the TypeScript sources:
  * `packages/nodes-base/utils/execution-context.ts` (`getOrderExecutionContext`,
    `determineTestModeWithCredentials`),
  * `packages/nodes-base/utils/order-node-executor.ts`
    (`OrderNodeExecutor.determineExecutionBehavior`, `refineExecutionContext`,
    `forcePaperTradingCredentials`),
  * an earlier divergent revision of the same executor (src/unnamed/part_004),
  * `packages/nodes-base/trading/order-node-executor.ts` (the variant that
    validates workflow settings and returns a `tradingEnvironment`),
  * `packages/nodes-base/utils/trading-node-helper.ts` (`trackOrder`),
  * the shipped `sendOrderToAPI` client (the gated, camelCase-orderType
    revision staged at `packages/nodes-base/trading/trading-api-client.ts`,
    which is the `utils/trading-api-client.ts` the helper imports), and its
    earlier ungated revision (src/unnamed/part_008).

JavaScript objects (`IDataObject`) are modelled as association lists of
string key/value pairs with lookup semantics; object spread with an
overriding key is modelled by `setField`.  Host-engine signals that the
code reads reflectively (`runExecutionData`, `mode`, parent nodes, input
items) are explicit fields of `HostState`; places where the source wraps a
host call in try/catch get an explicit `...Throws : Bool` flag selecting
the catch branch.  The HTTP transport is a parameter
`ApiRequest → Except String DataObject`; a function result of
`Except String (Option ApiRequest × DataObject)` records the single request
the code issued (`none` when the code returned before any network call).
-/

namespace TradingGate

/-- The `OrderExecutionContext` enum from `utils/order-node-types.ts`. -/
inductive OrderExecutionContext where
  | executeStep
  | manualInactive
  | active
  deriving DecidableEq, Repr

/-- String serialization of the enum values (`'execute-step'` etc.). -/
def OrderExecutionContext.toStr : OrderExecutionContext → String
  | .executeStep => "execute-step"
  | .manualInactive => "manual-inactive"
  | .active => "active"

/-- The `OrderExecutionResult` shape from `utils/order-node-types.ts`. -/
structure OrderExecutionResult where
  context : OrderExecutionContext
  shouldMock : Bool
  forcePaperTrading : Bool
  executeRealTrade : Bool
  deriving DecidableEq, Repr

/-- The `TradingEnvironment` values used by `trading/order-node-executor.ts`. -/
inductive TradingEnvironment where
  | mock
  | paper
  | live
  deriving DecidableEq, Repr

/-- A JavaScript `IDataObject`, modelled as an association list with
lookup semantics (first matching key wins). -/
abbrev DataObject := List (String × String)

/-- First-match lookup of a field in a `DataObject`. -/
def lookupField : DataObject → String → Option String
  | [], _ => none
  | (k, v) :: rest, q => if k = q then some v else lookupField rest q

/-- Drop every binding of key `k` (the effect of overriding `k` in an
object spread, restricted to lookup semantics). -/
def removeField : DataObject → String → DataObject
  | [], _ => []
  | (k', v) :: rest, k =>
    if k' = k then removeField rest k else (k', v) :: removeField rest k

/-- Object spread with an overriding key, `\x7b...o, k: v\x7d`: every other
field of `o` is kept, field `k` is (re)set to `v`. -/
def setField (o : DataObject) (k v : String) : DataObject :=
  removeField o k ++ [(k, v)]

/-- Setting a field from a possibly-`undefined` value: assigning
`undefined` leaves the field unreadable, which under lookup semantics is
the same as removing it. -/
def setFieldOpt (o : DataObject) (k : String) : Option String → DataObject
  | none => removeField o k
  | some v => setField o k v

/-- JavaScript `x || d` for an optional string: `undefined` and the empty
string are falsy and fall back to `d`. -/
def tsStringOr (s : Option String) (d : String) : String :=
  match s with
  | none => d
  | some v => if v = "" then d else v

/-- JavaScript truthiness test `!x` for an optional string, returning the
value when truthy. -/
def tsTruthy (s : Option String) : Option String :=
  match s with
  | none => none
  | some v => if v = "" then none else some v

/-- The host signals read by `getOrderExecutionContext`
(`utils/execution-context.ts`): `runExecutionData.startData.destinationNode`,
the current node's name and the run mode (`contextAny.mode ?? getMode()`,
`none` when neither is populated). -/
structure ContextSignals where
  destinationNode : Option String
  nodeName : String
  mode : Option String
  deriving DecidableEq, Repr

/-- Function `getOrderExecutionContext` from `utils/execution-context.ts`:
ordered, first-match-wins classification of the invocation. -/
def getOrderExecutionContext (s : ContextSignals) (workflowActive : Bool) :
    OrderExecutionContext :=
  let isManual : Bool := s.mode == some "manual"
  let isExecuteStep : Bool := s.destinationNode == some s.nodeName
  if isExecuteStep && isManual then .executeStep
  else if isManual && !workflowActive then .manualInactive
  else if workflowActive then .active
  else .manualInactive

/-- Shape of `workflow.settings` (`WorkflowWithSettings`): optional object with an
optional `tradingMode` string. -/
structure WorkflowSettings where
  tradingMode : Option String
  deriving DecidableEq, Repr

/-- The per-invocation host state the executor reads: workflow flags and
settings, the context-resolution signals, and flags selecting the catch
branches of the source's try/catch blocks. -/
structure HostState where
  signals : ContextSignals
  workflowActive : Bool
  settings : Option WorkflowSettings
  /-- Whether `getOrderExecutionContext` raised (host internals not populated). -/
  resolverThrows : Bool
  /-- number of parent nodes returned by `getParentNodes`. -/
  parentNodeCount : Nat
  /-- the input items, each item represented by the number of keys of its
  `json` payload. -/
  inputItemKeyCounts : List Nat
  /-- the `getParentNodes`/`getInputData` checks inside
  `refineExecutionContext` raised. -/
  refineChecksThrow : Bool
  /-- the fallback `getInputData` inside part_004's catch also raised. -/
  refineFallbackThrows : Bool
  deriving DecidableEq, Repr

/-- Reading of `workflow.settings?.tradingMode`, flattened. -/
def HostState.settingsTradingMode (st : HostState) : Option String :=
  match st.settings with
  | none => none
  | some s => s.tradingMode

/-- The `OrderNodeConfig` shape from `utils/order-node-types.ts`. -/
structure OrderNodeConfig where
  hasOrderMetadata : Bool
  executionContext : Option OrderExecutionContext
  isTradeOperation : Bool
  deriving DecidableEq, Repr

/-- The check `items.length === 0 || (items.length === 1 && Object.keys(items[0].json).length === 0)`. -/
def hasMinimalInput (items : List Nat) : Bool :=
  items.length == 0 || (items.length == 1 && items.headD 1 == 0)

/-- Method `OrderNodeExecutor.refineExecutionContext` from
`utils/order-node-executor.ts`: refines `ManualInactive` to `ExecuteStep`
only when BOTH no-parent-nodes AND minimal-input hold; on a raised check it
keeps the current context. -/
def utilsRefineExecutionContext (st : HostState)
    (currentContext : OrderExecutionContext) : OrderExecutionContext :=
  if st.signals.mode == some "manual" && !st.workflowActive &&
      currentContext == .manualInactive then
    if st.refineChecksThrow then currentContext
    else if st.parentNodeCount == 0 && hasMinimalInput st.inputItemKeyCounts then
      .executeStep
    else currentContext
  else currentContext

/-- Method `OrderNodeExecutor.determineExecutionBehavior` from
`utils/order-node-executor.ts` (the revision the shipped nodes import):
execute-step always mocks; an ACTIVE workflow always trades live ignoring
the trading-mode toggle; an inactive workflow follows the toggle, with a
missing `tradingMode` defaulting to `'mock'` via `?? 'mock'`. -/
def utilsDetermineExecutionBehavior (st : HostState) (config : OrderNodeConfig) :
    OrderExecutionResult :=
  if !config.hasOrderMetadata || !config.isTradeOperation then
    { context := config.executionContext.getD .manualInactive
      shouldMock := false
      forcePaperTrading := false
      executeRealTrade := true }
  else
    let detectedContext :=
      config.executionContext.getD
        (if st.resolverThrows then .executeStep
         else getOrderExecutionContext st.signals st.workflowActive)
    let tradingMode := st.settingsTradingMode.getD "mock"
    if detectedContext == .executeStep then
      { context := detectedContext
        shouldMock := true
        forcePaperTrading := true
        executeRealTrade := false }
    else if st.workflowActive then
      { context := detectedContext
        shouldMock := false
        forcePaperTrading := false
        executeRealTrade := true }
    else
      let refinedContext :=
        if detectedContext == .manualInactive then
          utilsRefineExecutionContext st detectedContext
        else detectedContext
      if refinedContext == .executeStep then
        { context := refinedContext
          shouldMock := true
          forcePaperTrading := true
          executeRealTrade := false }
      else if tradingMode == "mock" then
        { context := refinedContext
          shouldMock := true
          forcePaperTrading := true
          executeRealTrade := false }
      else
        { context := refinedContext
          shouldMock := false
          forcePaperTrading := true
          executeRealTrade := true }

/-- Method `refineExecutionContext` from the earlier executor revision
(src/unnamed/part_004): refines when no-parent-nodes OR minimal-input
holds, and on a raised check falls back to the input-data test alone. -/
def part004RefineExecutionContext (st : HostState)
    (currentContext : OrderExecutionContext) : OrderExecutionContext :=
  if st.signals.mode == some "manual" && !st.workflowActive &&
      currentContext == .manualInactive then
    if !st.refineChecksThrow then
      if st.parentNodeCount == 0 || hasMinimalInput st.inputItemKeyCounts then
        .executeStep
      else currentContext
    else if !st.refineFallbackThrows then
      if hasMinimalInput st.inputItemKeyCounts then .executeStep
      else currentContext
    else currentContext
  else currentContext

/-- Method `OrderNodeExecutor.determineExecutionBehavior` from the earlier
executor revision (src/unnamed/part_004): execute-step always mocks, then a
workflow in `'mock'` mode mocks all trades regardless of context, then
ManualInactive trades on paper and Active trades unforced; an unexpected
context falls back to execute-step mocking. -/
def part004DetermineExecutionBehavior (st : HostState) (config : OrderNodeConfig) :
    OrderExecutionResult :=
  if !config.hasOrderMetadata || !config.isTradeOperation then
    { context := config.executionContext.getD .manualInactive
      shouldMock := false
      forcePaperTrading := false
      executeRealTrade := true }
  else
    let detectedContext0 :=
      config.executionContext.getD
        (if st.resolverThrows then .executeStep
         else getOrderExecutionContext st.signals st.workflowActive)
    let detectedContext :=
      if detectedContext0 == .manualInactive then
        part004RefineExecutionContext st detectedContext0
      else detectedContext0
    let tradingMode := tsStringOr st.settingsTradingMode "mock"
    if detectedContext == .executeStep then
      { context := detectedContext
        shouldMock := true
        forcePaperTrading := true
        executeRealTrade := false }
    else if tradingMode == "mock" then
      { context := detectedContext
        shouldMock := true
        forcePaperTrading := true
        executeRealTrade := false }
    else if detectedContext == .manualInactive then
      { context := detectedContext
        shouldMock := false
        forcePaperTrading := true
        executeRealTrade := true }
    else if detectedContext == .active then
      { context := detectedContext
        shouldMock := false
        forcePaperTrading := false
        executeRealTrade := true }
    else
      { context := .executeStep
        shouldMock := true
        forcePaperTrading := true
        executeRealTrade := false }

/-- Method `OrderNodeExecutor.determineExecutionBehavior` from
`trading/order-node-executor.ts`: validates that `workflow.settings` and
`settings.tradingMode` are present (raising `ApplicationError` otherwise),
then active ⇒ live, inactive+mock ⇒ mock, inactive otherwise ⇒ paper. -/
def tradingDetermineExecutionBehavior (st : HostState) (config : OrderNodeConfig) :
    Except String TradingEnvironment :=
  if !config.hasOrderMetadata || !config.isTradeOperation then
    .ok .live
  else
    match st.settings with
    | none => .error "Workflow settings are missing from the workflow object"
    | some settings =>
      match tsTruthy settings.tradingMode with
      | none => .error "Trading mode is not defined in workflow settings"
      | some tradingMode =>
        if st.workflowActive then .ok .live
        else if tradingMode == "mock" then .ok .mock
        else .ok .paper

/-- Method `OrderNodeExecutor.forcePaperTradingCredentials`:
`\x7b...credentials, environment: TradingEnvironment.paper\x7d`. -/
def forcePaperTradingCredentials (credentials : DataObject) : DataObject :=
  setField credentials "environment" "paper"

/-- Method `OrderNodeExecutor.isPaperTrading`. -/
def isPaperTrading (credentials : Option DataObject) : Bool :=
  (credentials.bind (lookupField · "environment")) == some "paper"

/-- An assembled HTTP request (url, headers, JSON body). -/
structure ApiRequest where
  url : String
  headers : DataObject
  body : DataObject
  deriving DecidableEq, Repr

/-- The `TradingExecutionContext` record from `utils/execution-context.ts`
(`getTradingExecutionContext`): correlation data re-derived from the host
per invocation. -/
structure TradingExecCtx where
  workflowId : Option String
  executionId : Option String
  userId : Option String
  executionMode : String
  deriving DecidableEq, Repr

/-- Environment-level configuration read by the API client: the optional
`apiBaseUrl` argument, `process.env.PLAYBOOK_API_BASE_URL` and
`process.env.PLAYBOOK_API_KEY`. -/
structure ApiConfig where
  apiBaseUrlArg : Option String
  envBaseUrl : Option String
  envApiKey : Option String
  deriving DecidableEq, Repr

/-- The four order-type categories. -/
inductive OrderType where
  | stock
  | crypto
  | predictionMarket
  | sportsBetting
  deriving DecidableEq, Repr

/-- The `endpointMap` of `sendOrderToAPI`. -/
def endpointFor : OrderType → String
  | .stock => "/api/trading-orders/stock"
  | .crypto => "/api/trading-orders/crypto"
  | .predictionMarket => "/api/trading-orders/prediction-market"
  | .sportsBetting => "/api/trading-orders/sports-betting"

/-- The HTTP transport (`context.helpers.httpRequest`): a single attempt
that either yields a response object or fails. -/
abbrev Transport := ApiRequest → Except String DataObject

/-- Function `sendOrderToAPI` of an earlier, ungated client revision
(src/unnamed/part_008).  It is also, verbatim, the post-gate body of the
shipped client (see `tradingSendOrderToAPI` below), which is why the gated
client is modelled as a gate in front of this core.  Behaviour: resolves the
base URL (`apiBaseUrl ?? env ?? 'http://127.0.0.1:3005'`), assembles the
body with correlation fields, authenticates with the service API key when
configured (attaching `X-User-Id` when known), otherwise requires a user id
and embeds it in the body, then performs one POST; a transport failure is
caught, logged as a warning and converted to `\x7b\x7d`.  The result records the
request that was issued alongside the returned object. -/
def sendOrderToAPICore (exec : TradingExecCtx) (api : ApiConfig)
    (transport : Transport) (orderData : DataObject) (orderType : OrderType) :
    Except String (Option ApiRequest × DataObject) :=
  let baseUrl := api.apiBaseUrlArg.getD (api.envBaseUrl.getD "http://127.0.0.1:3005")
  let url := baseUrl ++ endpointFor orderType
  let body0 :=
    setFieldOpt
      (setField
        (setFieldOpt
          (setFieldOpt orderData "workflowId" exec.workflowId)
          "executionId" exec.executionId)
        "executionMode" exec.executionMode)
      "executionContext" (lookupField orderData "executionContext")
  let headers0 : DataObject := [("Content-Type", "application/json")]
  match api.envApiKey with
  | some apiKey =>
    let headers1 := setField headers0 "X-API-Key" apiKey
    let headers :=
      match exec.userId with
      | some userId => setField headers1 "X-User-Id" userId
      | none => headers1
    let req : ApiRequest := { url := url, headers := headers, body := body0 }
    match transport req with
    | .ok response => .ok (some req, response)
    | .error _ => .ok (some req, [])
  | none =>
    match exec.userId with
    | none =>
      .error "User ID not available in execution context and no API key configured. Cannot track order."
    | some userId =>
      let body := setField body0 "userId" userId
      let req : ApiRequest := { url := url, headers := headers0, body := body }
      match transport req with
      | .ok response => .ok (some req, response)
      | .error _ => .ok (some req, [])

/-- Function `sendOrderToAPI` of the shipped client — the revision staged in
the tree at `trading/trading-api-client.ts`, which is the
`utils/trading-api-client.ts` that `utils/trading-node-helper.ts` imports as
`./trading-api-client`: it is the only revision whose camelCase `orderType`
union (`'predictionMarket' | 'sportsBetting'`) type-matches the helper and
the Kalshi node, and whose `WorkflowWithSettings` import resolves there.
Before anything else, a client-side safety gate returns `\x7b\x7d` without any
network activity when `orderData.executionContext` is `'execute-step'` or
the workflow's `settings.tradingMode ?? 'mock'` is `'mock'`; otherwise it
proceeds exactly as `sendOrderToAPICore`. -/
def tradingSendOrderToAPI (st : HostState) (exec : TradingExecCtx)
    (api : ApiConfig) (transport : Transport) (orderData : DataObject)
    (orderType : OrderType) : Except String (Option ApiRequest × DataObject) :=
  let executionContext := lookupField orderData "executionContext"
  let tradingMode := st.settingsTradingMode.getD "mock"
  let isExecuteStep : Bool := executionContext == some "execute-step"
  let isMockMode : Bool := isExecuteStep || tradingMode == "mock"
  if isMockMode then .ok (none, [])
  else sendOrderToAPICore exec api transport orderData orderType

/-- Function `determineTestModeWithCredentials` from `utils/execution-context.ts`. -/
def determineTestModeWithCredentials (credentials : Option DataObject)
    (executionMode : String) (workflowActive : Bool) : Bool :=
  if (credentials.bind (lookupField · "environment")) == some "paper" then true
  else if executionMode == "test" then true
  else if !workflowActive then true
  else false

/-- The arguments of `trackOrder` beyond the host context. -/
structure TrackArgs where
  orderData : DataObject
  orderType : OrderType
  credentials : Option DataObject
  orderExecutionContext : Option OrderExecutionContext
  shouldMock : Option Bool
  deriving DecidableEq, Repr

/-- The execution context `trackOrder` works with: the caller-provided one
when present, else a fresh `getOrderExecutionContext` resolution (left
undetermined when resolution raises). -/
def trackOrderEffectiveContext (st : HostState) (args : TrackArgs) :
    Option OrderExecutionContext :=
  match args.orderExecutionContext with
  | some c => some c
  | none =>
    if st.resolverThrows then none
    else some (getOrderExecutionContext st.signals st.workflowActive)

/-- Function `trackOrder` from `utils/trading-node-helper.ts`: re-derives test-mode
and environment classification from credentials and host state, computes
`isMockMode` (explicit `shouldMock=true` wins; explicit `false` is still
overridden when the context is execute-step; an unset flag falls back to
execute-step-or-mock-mode detection with `tradingMode ?? 'mock'`), returns
`\x7b\x7d` without any network call in mock mode, and otherwise assembles the
tracking record and delegates to the imported `sendOrderToAPI` — the gated
client `tradingSendOrderToAPI`, so the client-side mock gate runs again on
the delegated call. -/
def trackOrder (st : HostState) (exec : TradingExecCtx) (api : ApiConfig)
    (transport : Transport) (args : TrackArgs) :
    Except String (Option ApiRequest × DataObject) :=
  let isTestMode :=
    determineTestModeWithCredentials args.credentials exec.executionMode
      st.workflowActive
  let environment :=
    if (args.credentials.bind (lookupField · "environment")) == some "paper"
    then "paper" else "live"
  let executionContext := trackOrderEffectiveContext st args
  let isMockMode : Bool :=
    match args.shouldMock with
    | some true => true
    | some false => executionContext == some .executeStep
    | none =>
      let isExecuteStep : Bool := executionContext == some .executeStep
      let tradingMode := st.settingsTradingMode.getD "mock"
      isExecuteStep || tradingMode == "mock"
  if isMockMode then .ok (none, [])
  else
    let trackingData :=
      setFieldOpt
        (setField
          (setField args.orderData "environment" environment)
          "executionMode" (if isTestMode then "test" else "production"))
        "executionContext" (executionContext.map OrderExecutionContext.toStr)
    tradingSendOrderToAPI st exec api transport trackingData args.orderType

/-- A transport that always succeeds with an empty response object. -/
def constOkTransport : Transport := fun _ => .ok []

/-- A transport that always fails at the transport level. -/
def failTransport : Transport := fun _ => .error "network unreachable"

/-! Helper lemmas about `DataObject` field access. -/

theorem lookupField_removeField_self (o : DataObject) (k : String) :
    lookupField (removeField o k) k = none := by
  induction o with
  | nil => rfl
  | cons hd tl ih =>
    obtain ⟨k', v⟩ := hd
    by_cases h : k' = k
    · simp [removeField, h, ih]
    · simp [removeField, h, lookupField, ih]

theorem lookupField_removeField_ne (o : DataObject) (k q : String) (h : q ≠ k) :
    lookupField (removeField o k) q = lookupField o q := by
  induction o with
  | nil => rfl
  | cons hd tl ih =>
    obtain ⟨k', v⟩ := hd
    by_cases hh : k' = k
    · have hne : k' ≠ q := by rw [hh]; exact fun hc => h hc.symm
      simp [removeField, hh, lookupField, hne, ih, Ne.symm h]
    · by_cases hq : k' = q
      · simp [removeField, hh, lookupField, hq, Ne.symm h, h]
      · simp [removeField, hh, lookupField, hq, ih]

theorem lookupField_append_of_none (a b : DataObject) (q : String)
    (h : lookupField a q = none) :
    lookupField (a ++ b) q = lookupField b q := by
  induction a with
  | nil => rfl
  | cons hd tl ih =>
    obtain ⟨k', v⟩ := hd
    simp only [lookupField] at h
    by_cases hq : k' = q
    · rw [if_pos hq] at h
      exact absurd h (by simp)
    · rw [if_neg hq] at h
      simp only [List.cons_append, lookupField, if_neg hq]
      exact ih h

theorem lookupField_setField_self (o : DataObject) (k v : String) :
    lookupField (setField o k v) k = some v := by
  unfold setField
  rw [lookupField_append_of_none _ _ _ (lookupField_removeField_self o k)]
  simp [lookupField]

theorem lookupField_setField_ne (o : DataObject) (k v q : String) (h : q ≠ k) :
    lookupField (setField o k v) q = lookupField o q := by
  unfold setField
  rw [← lookupField_removeField_ne o k q h]
  induction removeField o k with
  | nil => simp [lookupField, Ne.symm h]
  | cons hd tl ih =>
    obtain ⟨k', v'⟩ := hd
    by_cases hq : k' = q
    · simp [lookupField, hq]
    · simp [lookupField, hq, ih]

theorem lookupField_setFieldOpt_ne (o : DataObject) (k q : String)
    (ov : Option String) (h : q ≠ k) :
    lookupField (setFieldOpt o k ov) q = lookupField o q := by
  cases ov with
  | none => exact lookupField_removeField_ne o k q h
  | some v => exact lookupField_setField_ne o k v q h

theorem lookupField_setFieldOpt_self (o : DataObject) (k : String)
    (ov : Option String) :
    lookupField (setFieldOpt o k ov) k = ov := by
  cases ov with
  | none => exact lookupField_removeField_self o k
  | some v => exact lookupField_setField_self o k v

/-! Claim theorems follow. -/

/-- C7: `forcePaperTradingCredentials` returns a credential value whose
`environment` field is `'paper'` while every other field is unchanged; the
input is a pure value that the function only reads (the returned object is
built by spread, never by assignment into the original), so the original
remains usable with its original field values. -/
theorem forcePaperTradingCredentials_frame (credentials : DataObject)
    (k : String) (hk : k ≠ "environment") :
    lookupField (forcePaperTradingCredentials credentials) "environment" =
      some "paper" ∧
    lookupField (forcePaperTradingCredentials credentials) k =
      lookupField credentials k :=
  ⟨lookupField_setField_self credentials "environment" "paper",
   lookupField_setField_ne credentials "environment" "paper" k hk⟩

theorem forcePaperTradingCredentials_frame_witness :
    lookupField (forcePaperTradingCredentials
      [("environment", "live"), ("apiKeyId", "AK123"), ("secretKey", "SK456")])
      "environment" = some "paper" ∧
    lookupField (forcePaperTradingCredentials
      [("environment", "live"), ("apiKeyId", "AK123"), ("secretKey", "SK456")])
      "apiKeyId" =
    lookupField
      [("environment", "live"), ("apiKeyId", "AK123"), ("secretKey", "SK456")]
      "apiKeyId" :=
  forcePaperTradingCredentials_frame
    [("environment", "live"), ("apiKeyId", "AK123"), ("secretKey", "SK456")]
    "apiKeyId" (by decide)

/-- C5: `getOrderExecutionContext` is a total, deterministic,
first-match-wins classification (totality and determinism hold by
construction: it is a plain function of its input signals, and unavailable
signals are `none` values rather than exceptions): (1) destination node
equals the current node and the mode is manual ⇒ `ExecuteStep`, for either
value of the active flag; (2) else manual and not active ⇒
`ManualInactive`; (3) else active ⇒ `Active`; (4) otherwise — including
when the mode signal is unavailable — `ManualInactive`. -/
theorem getOrderExecutionContext_classification (s : ContextSignals)
    (workflowActive : Bool) :
    (s.destinationNode = some s.nodeName → s.mode = some "manual" →
      getOrderExecutionContext s workflowActive = .executeStep) ∧
    (s.mode = some "manual" → s.destinationNode ≠ some s.nodeName →
      workflowActive = false →
      getOrderExecutionContext s workflowActive = .manualInactive) ∧
    (workflowActive = true →
      ¬(s.destinationNode = some s.nodeName ∧ s.mode = some "manual") →
      getOrderExecutionContext s workflowActive = .active) ∧
    (workflowActive = false → s.mode ≠ some "manual" →
      getOrderExecutionContext s workflowActive = .manualInactive) := by
  refine ⟨?_, ?_, ?_, ?_⟩
  · intro hd hm
    simp [getOrderExecutionContext, hd, hm]
  · intro hm hd ha
    simp [getOrderExecutionContext, hd, hm, ha]
  · intro ha hn
    by_cases hd : s.destinationNode = some s.nodeName
    · have hm : s.mode ≠ some "manual" := fun hm => hn ⟨hd, hm⟩
      simp [getOrderExecutionContext, hd, hm, ha]
    · simp [getOrderExecutionContext, hd, ha]
  · intro ha hm
    simp [getOrderExecutionContext, hm, ha]

theorem getOrderExecutionContext_classification_witness :
    getOrderExecutionContext
      { destinationNode := some "Alpaca Markets"
        nodeName := "Alpaca Markets"
        mode := some "manual" } true = .executeStep :=
  (getOrderExecutionContext_classification
    { destinationNode := some "Alpaca Markets"
      nodeName := "Alpaca Markets"
      mode := some "manual" } true).1 rfl rfl

/-- C6: every decision either of the two decision-table implementations
returns — on any combination of capability flag, trade-operation flag,
(passed or resolved) execution context, workflow active flag and trading
mode — has exactly one of `shouldMock` and `executeRealTrade` set. -/
theorem executionDecision_exclusive (st : HostState) (config : OrderNodeConfig) :
    (((utilsDetermineExecutionBehavior st config).shouldMock = true ∧
      (utilsDetermineExecutionBehavior st config).executeRealTrade = false) ∨
     ((utilsDetermineExecutionBehavior st config).shouldMock = false ∧
      (utilsDetermineExecutionBehavior st config).executeRealTrade = true)) ∧
    (((part004DetermineExecutionBehavior st config).shouldMock = true ∧
      (part004DetermineExecutionBehavior st config).executeRealTrade = false) ∨
     ((part004DetermineExecutionBehavior st config).shouldMock = false ∧
      (part004DetermineExecutionBehavior st config).executeRealTrade = true)) := by
  constructor
  · unfold utilsDetermineExecutionBehavior
    split_ifs <;> (try simp) <;> (split_ifs <;> simp)
  · unfold part004DetermineExecutionBehavior
    split_ifs <;> (try simp) <;> (split_ifs <;> simp)

/-- C3: for a capability-tagged, trade-producing operation whose execution
context is `ExecuteStep` — whether passed in or freshly resolved — both
decision-table implementations return exactly
`shouldMock, forcePaperTrading, executeRealTrade = true, true, false`, for
every trading mode and active flag (both are arbitrary in `st`). -/
theorem determineExecutionBehavior_executeStep_mocks (st : HostState)
    (config : OrderNodeConfig)
    (h1 : config.hasOrderMetadata = true) (h2 : config.isTradeOperation = true)
    (h3 : config.executionContext = some .executeStep ∨
      (config.executionContext = none ∧ st.resolverThrows = false ∧
        getOrderExecutionContext st.signals st.workflowActive = .executeStep)) :
    utilsDetermineExecutionBehavior st config =
      { context := .executeStep, shouldMock := true, forcePaperTrading := true
        executeRealTrade := false } ∧
    part004DetermineExecutionBehavior st config =
      { context := .executeStep, shouldMock := true, forcePaperTrading := true
        executeRealTrade := false } := by
  rcases h3 with hsome | ⟨hnone, hthrow, hres⟩
  · constructor
    · simp [utilsDetermineExecutionBehavior, h1, h2, hsome]
    · simp [part004DetermineExecutionBehavior, h1, h2, hsome]
  · constructor
    · simp [utilsDetermineExecutionBehavior, h1, h2, hnone, hthrow, hres]
    · simp [part004DetermineExecutionBehavior, h1, h2, hnone, hthrow, hres]

theorem determineExecutionBehavior_executeStep_mocks_witness :
    utilsDetermineExecutionBehavior
      { signals := { destinationNode := some "Kalshi", nodeName := "Kalshi"
                     mode := some "manual" }
        workflowActive := false
        settings := some { tradingMode := some "paper" }
        resolverThrows := false
        parentNodeCount := 0
        inputItemKeyCounts := []
        refineChecksThrow := false
        refineFallbackThrows := false }
      { hasOrderMetadata := true, executionContext := some .executeStep
        isTradeOperation := true } =
      { context := .executeStep, shouldMock := true, forcePaperTrading := true
        executeRealTrade := false } ∧
    part004DetermineExecutionBehavior
      { signals := { destinationNode := some "Kalshi", nodeName := "Kalshi"
                     mode := some "manual" }
        workflowActive := false
        settings := some { tradingMode := some "paper" }
        resolverThrows := false
        parentNodeCount := 0
        inputItemKeyCounts := []
        refineChecksThrow := false
        refineFallbackThrows := false }
      { hasOrderMetadata := true, executionContext := some .executeStep
        isTradeOperation := true } =
      { context := .executeStep, shouldMock := true, forcePaperTrading := true
        executeRealTrade := false } :=
  determineExecutionBehavior_executeStep_mocks _ _ rfl rfl (Or.inl rfl)

/-- C1 (corrected): the two implementations diverge on the
Active-context/Mock-mode row.  In the earlier revision (src/unnamed/part_004)
the mock toggle wins for an active workflow, exactly as the claim's table
row states; in `utils/order-node-executor.ts` an active workflow always
trades live with unforced credentials, ignoring the Mock trading mode. -/
theorem active_mock_divergence (st : HostState) (config : OrderNodeConfig)
    (h1 : config.hasOrderMetadata = true) (h2 : config.isTradeOperation = true)
    (h3 : config.executionContext = some .active)
    (h4 : st.workflowActive = true)
    (h5 : st.settingsTradingMode = some "mock") :
    part004DetermineExecutionBehavior st config =
      { context := .active, shouldMock := true, forcePaperTrading := true
        executeRealTrade := false } ∧
    utilsDetermineExecutionBehavior st config =
      { context := .active, shouldMock := false, forcePaperTrading := false
        executeRealTrade := true } := by
  constructor
  · simp [part004DetermineExecutionBehavior, h1, h2, h3, h5, tsStringOr]
  · simp [utilsDetermineExecutionBehavior, h1, h2, h3, h4]

theorem active_mock_divergence_witness :
    part004DetermineExecutionBehavior
      { signals := { destinationNode := none, nodeName := "Alpaca Markets"
                     mode := some "trigger" }
        workflowActive := true
        settings := some { tradingMode := some "mock" }
        resolverThrows := false
        parentNodeCount := 1
        inputItemKeyCounts := [3]
        refineChecksThrow := false
        refineFallbackThrows := false }
      { hasOrderMetadata := true, executionContext := some .active
        isTradeOperation := true } =
      { context := .active, shouldMock := true, forcePaperTrading := true
        executeRealTrade := false } ∧
    utilsDetermineExecutionBehavior
      { signals := { destinationNode := none, nodeName := "Alpaca Markets"
                     mode := some "trigger" }
        workflowActive := true
        settings := some { tradingMode := some "mock" }
        resolverThrows := false
        parentNodeCount := 1
        inputItemKeyCounts := [3]
        refineChecksThrow := false
        refineFallbackThrows := false }
      { hasOrderMetadata := true, executionContext := some .active
        isTradeOperation := true } =
      { context := .active, shouldMock := false, forcePaperTrading := false
        executeRealTrade := true } :=
  active_mock_divergence _ _ rfl rfl rfl rfl rfl

/-- C1 counterexample: at a concrete input with the context resolved as
Active and the workflow's `TradingMode` set to Mock, the decision engine
the shipped nodes import (`utils/order-node-executor.ts`) does NOT return
the claimed `shouldMock=true, forcePaperTrading=true,
executeRealTrade=false`; it returns the live-trade decision. -/
theorem active_mock_counterexample :
    ¬ ((utilsDetermineExecutionBehavior
          { signals := { destinationNode := none, nodeName := "Alpaca Markets"
                         mode := some "trigger" }
            workflowActive := true
            settings := some { tradingMode := some "mock" }
            resolverThrows := false
            parentNodeCount := 1
            inputItemKeyCounts := [3]
            refineChecksThrow := false
            refineFallbackThrows := false }
          { hasOrderMetadata := true, executionContext := some .active
            isTradeOperation := true }).shouldMock = true ∧
       (utilsDetermineExecutionBehavior
          { signals := { destinationNode := none, nodeName := "Alpaca Markets"
                         mode := some "trigger" }
            workflowActive := true
            settings := some { tradingMode := some "mock" }
            resolverThrows := false
            parentNodeCount := 1
            inputItemKeyCounts := [3]
            refineChecksThrow := false
            refineFallbackThrows := false }
          { hasOrderMetadata := true, executionContext := some .active
            isTradeOperation := true }).forcePaperTrading = true ∧
       (utilsDetermineExecutionBehavior
          { signals := { destinationNode := none, nodeName := "Alpaca Markets"
                         mode := some "trigger" }
            workflowActive := true
            settings := some { tradingMode := some "mock" }
            resolverThrows := false
            parentNodeCount := 1
            inputItemKeyCounts := [3]
            refineChecksThrow := false
            refineFallbackThrows := false }
          { hasOrderMetadata := true, executionContext := some .active
            isTradeOperation := true }).executeRealTrade = false) := by
  decide

/-- C2 (corrected): the two decision engines handle a missing
`TradingMode` differently.  The `trading/order-node-executor.ts` engine
raises synchronously — `ApplicationError` when `workflow.settings` is
absent and when `settings.tradingMode` is unset.  The
`utils/order-node-executor.ts` engine never raises: it silently defaults
the mode to `'mock'` (`?? 'mock'`), behaving exactly as if the workflow
were configured with `tradingMode = 'mock'`. -/
theorem missing_trading_mode_divergence (st : HostState)
    (config : OrderNodeConfig)
    (h1 : config.hasOrderMetadata = true) (h2 : config.isTradeOperation = true) :
    (st.settings = none →
      tradingDetermineExecutionBehavior st config =
        .error "Workflow settings are missing from the workflow object") ∧
    (∀ s, st.settings = some s → tsTruthy s.tradingMode = none →
      tradingDetermineExecutionBehavior st config =
        .error "Trading mode is not defined in workflow settings") ∧
    (st.settingsTradingMode = none →
      utilsDetermineExecutionBehavior st config =
        utilsDetermineExecutionBehavior
          { st with settings := some { tradingMode := some "mock" } } config) := by
  refine ⟨?_, ?_, ?_⟩
  · intro h
    simp [tradingDetermineExecutionBehavior, h1, h2, h]
  · intro s hs hm
    simp [tradingDetermineExecutionBehavior, h1, h2, hs, hm]
  · intro h
    unfold utilsDetermineExecutionBehavior
    rw [h]
    rfl

theorem missing_trading_mode_divergence_witness :
    tradingDetermineExecutionBehavior
      { signals := { destinationNode := none, nodeName := "Alpaca Markets"
                     mode := some "manual" }
        workflowActive := false
        settings := some { tradingMode := none }
        resolverThrows := false
        parentNodeCount := 1
        inputItemKeyCounts := [3]
        refineChecksThrow := false
        refineFallbackThrows := false }
      { hasOrderMetadata := true, executionContext := some .manualInactive
        isTradeOperation := true } =
      .error "Trading mode is not defined in workflow settings" :=
  (missing_trading_mode_divergence _ _ rfl rfl).2.1 { tradingMode := none } rfl rfl

/-- C2 counterexample: the decision engine the shipped nodes import
(`utils/order-node-executor.ts`) does not raise on a trade-capable
workflow with no `TradingMode` configured; it silently defaults the mode,
returning exactly the decision it returns when the workflow is explicitly
configured with `tradingMode = 'mock'`. -/
theorem missing_trading_mode_counterexample :
    utilsDetermineExecutionBehavior
      { signals := { destinationNode := none, nodeName := "Alpaca Markets"
                     mode := some "manual" }
        workflowActive := false
        settings := none
        resolverThrows := false
        parentNodeCount := 1
        inputItemKeyCounts := [3]
        refineChecksThrow := false
        refineFallbackThrows := false }
      { hasOrderMetadata := true, executionContext := some .manualInactive
        isTradeOperation := true } =
      { context := .manualInactive, shouldMock := true, forcePaperTrading := true
        executeRealTrade := false } ∧
    utilsDetermineExecutionBehavior
      { signals := { destinationNode := none, nodeName := "Alpaca Markets"
                     mode := some "manual" }
        workflowActive := false
        settings := some { tradingMode := some "mock" }
        resolverThrows := false
        parentNodeCount := 1
        inputItemKeyCounts := [3]
        refineChecksThrow := false
        refineFallbackThrows := false }
      { hasOrderMetadata := true, executionContext := some .manualInactive
        isTradeOperation := true } =
      { context := .manualInactive, shouldMock := true, forcePaperTrading := true
        executeRealTrade := false } := by
  decide

/-- When the client-side mock gate does not fire, the gated client behaves
exactly like the ungated one. -/
theorem tradingSendOrderToAPI_not_mock (st : HostState) (exec : TradingExecCtx)
    (api : ApiConfig) (transport : Transport) (orderData : DataObject)
    (orderType : OrderType)
    (hgate1 : lookupField orderData "executionContext" ≠ some "execute-step")
    (hgate2 : st.settingsTradingMode.getD "mock" ≠ "mock") :
    tradingSendOrderToAPI st exec api transport orderData orderType =
      sendOrderToAPICore exec api transport orderData orderType := by
  unfold tradingSendOrderToAPI
  simp [hgate1, hgate2]

/-- The ungated client never returns without having issued a request: its
result is an error or carries the request it made. -/
theorem sendOrderToAPICore_not_ok_none (exec : TradingExecCtx)
    (api : ApiConfig) (transport : Transport) (orderData : DataObject)
    (orderType : OrderType) (r : DataObject) :
    sendOrderToAPICore exec api transport orderData orderType ≠
      .ok (none, r) := by
  unfold sendOrderToAPICore
  cases api.envApiKey with
  | some k =>
    cases exec.userId with
    | some u =>
      dsimp only
      split <;> simp
    | none =>
      dsimp only
      split <;> simp
  | none =>
    cases exec.userId with
    | none => simp
    | some u =>
      dsimp only
      split <;> simp

/-- Mapping the enum serialization hits `'execute-step'` exactly on the
`ExecuteStep` constructor. -/
theorem toStr_eq_executeStep_iff (o : Option OrderExecutionContext) :
    o.map OrderExecutionContext.toStr = some "execute-step" ↔
      o = some .executeStep := by
  cases o with
  | none => simp
  | some c => cases c <;> simp [OrderExecutionContext.toStr]

/-- The gated client returns the empty record with no request exactly when
its mock gate fires. -/
theorem tradingSendOrderToAPI_ok_none_iff (st : HostState)
    (exec : TradingExecCtx) (api : ApiConfig) (transport : Transport)
    (orderData : DataObject) (orderType : OrderType) :
    tradingSendOrderToAPI st exec api transport orderData orderType =
        .ok (none, []) ↔
      (lookupField orderData "executionContext" = some "execute-step" ∨
       st.settingsTradingMode.getD "mock" = "mock") := by
  by_cases h1 : lookupField orderData "executionContext" = some "execute-step"
  · simp [tradingSendOrderToAPI, h1]
  · by_cases h2 : st.settingsTradingMode.getD "mock" = "mock"
    · simp [tradingSendOrderToAPI, h1, h2]
    · rw [tradingSendOrderToAPI_not_mock st exec api transport orderData
        orderType h1 h2]
      simp [h1, h2, sendOrderToAPICore_not_ok_none]

/-- C10: the client-side safety gate of `trading/trading-api-client.ts`.
Whenever the submitted `orderData.executionContext` is `'execute-step'`, or
the workflow's `settings.tradingMode` is `'mock'` or absent (it defaults to
`'mock'`), `sendOrderToAPI` returns the empty record without issuing any
HTTP request — the result is `(none, \x7b\x7d)` for every transport. -/
theorem sendOrderToAPI_client_mock_gate (st : HostState) (exec : TradingExecCtx)
    (api : ApiConfig) (transport : Transport) (orderData : DataObject)
    (orderType : OrderType)
    (h : lookupField orderData "executionContext" = some "execute-step" ∨
         st.settingsTradingMode = some "mock" ∨ st.settingsTradingMode = none) :
    tradingSendOrderToAPI st exec api transport orderData orderType =
      .ok (none, []) := by
  rcases h with h | h | h <;> simp [tradingSendOrderToAPI, h]

theorem sendOrderToAPI_client_mock_gate_witness :
    tradingSendOrderToAPI
      { signals := { destinationNode := none, nodeName := "Kalshi"
                     mode := some "manual" }
        workflowActive := false
        settings := some { tradingMode := some "mock" }
        resolverThrows := false
        parentNodeCount := 0
        inputItemKeyCounts := []
        refineChecksThrow := false
        refineFallbackThrows := false }
      { workflowId := some "wf-2", executionId := some "exec-2"
        userId := some "user-2", executionMode := "production" }
      { apiBaseUrlArg := none, envBaseUrl := none, envApiKey := some "key" }
      constOkTransport [("executionContext", "active")] .crypto =
      .ok (none, []) :=
  sendOrderToAPI_client_mock_gate _ _ _ _ _ _ (Or.inr (Or.inl rfl))

/-- C8 (corrected): past the client-side mock gate, when no service API
key is configured, `sendOrderToAPI` requires a resolvable user id: with no
user id it fails with the descriptive error for every transport (so before
any network request); with a user id, the single request it issues embeds
the user id in the body and carries neither an `X-User-Id` nor an
`X-API-Key` header. -/
theorem sendOrderToAPI_no_key_auth (st : HostState) (exec : TradingExecCtx)
    (api : ApiConfig) (transport : Transport) (orderData : DataObject)
    (orderType : OrderType)
    (hgate1 : lookupField orderData "executionContext" ≠ some "execute-step")
    (hgate2 : st.settingsTradingMode.getD "mock" ≠ "mock")
    (hkey : api.envApiKey = none) :
    (exec.userId = none →
      tradingSendOrderToAPI st exec api transport orderData orderType =
        .error "User ID not available in execution context and no API key configured. Cannot track order.") ∧
    (∀ userId, exec.userId = some userId →
      ∃ req resp,
        tradingSendOrderToAPI st exec api transport orderData orderType =
          .ok (some req, resp) ∧
        lookupField req.body "userId" = some userId ∧
        lookupField req.headers "X-User-Id" = none ∧
        lookupField req.headers "X-API-Key" = none) := by
  rw [tradingSendOrderToAPI_not_mock st exec api transport orderData orderType
    hgate1 hgate2]
  constructor
  · intro hu
    unfold sendOrderToAPICore
    rw [hkey, hu]
  · intro userId hu
    unfold sendOrderToAPICore
    rw [hkey, hu]
    dsimp only
    cases htr : transport
      { url := api.apiBaseUrlArg.getD (api.envBaseUrl.getD "http://127.0.0.1:3005")
          ++ endpointFor orderType
        headers := [("Content-Type", "application/json")]
        body := setField
          (setFieldOpt
            (setField
              (setFieldOpt
                (setFieldOpt orderData "workflowId" exec.workflowId)
                "executionId" exec.executionId)
              "executionMode" exec.executionMode)
            "executionContext" (lookupField orderData "executionContext"))
          "userId" userId } with
    | ok response =>
      refine ⟨{ url := api.apiBaseUrlArg.getD (api.envBaseUrl.getD "http://127.0.0.1:3005") ++ endpointFor orderType,
                headers := [("Content-Type", "application/json")],
                body := setField
                  (setFieldOpt
                    (setField
                      (setFieldOpt
                        (setFieldOpt orderData "workflowId" exec.workflowId)
                        "executionId" exec.executionId)
                      "executionMode" exec.executionMode)
                    "executionContext" (lookupField orderData "executionContext"))
                  "userId" userId },
        response, ?_, lookupField_setField_self _ _ _, rfl, rfl⟩
      rfl
    | error e =>
      refine ⟨{ url := api.apiBaseUrlArg.getD (api.envBaseUrl.getD "http://127.0.0.1:3005") ++ endpointFor orderType,
                headers := [("Content-Type", "application/json")],
                body := setField
                  (setFieldOpt
                    (setField
                      (setFieldOpt
                        (setFieldOpt orderData "workflowId" exec.workflowId)
                        "executionId" exec.executionId)
                      "executionMode" exec.executionMode)
                    "executionContext" (lookupField orderData "executionContext"))
                  "userId" userId },
        [], ?_, lookupField_setField_self _ _ _, rfl, rfl⟩
      rfl

theorem sendOrderToAPI_no_key_auth_witness :
    tradingSendOrderToAPI
      { signals := { destinationNode := none, nodeName := "Kalshi"
                     mode := some "trigger" }
        workflowActive := true
        settings := some { tradingMode := some "paper" }
        resolverThrows := false
        parentNodeCount := 0
        inputItemKeyCounts := []
        refineChecksThrow := false
        refineFallbackThrows := false }
      { workflowId := some "wf-3", executionId := some "exec-3", userId := none
        executionMode := "production" }
      { apiBaseUrlArg := none, envBaseUrl := none, envApiKey := none }
      constOkTransport [("symbol", "AAPL"), ("executionContext", "active")]
      .stock =
      .error "User ID not available in execution context and no API key configured. Cannot track order." :=
  (sendOrderToAPI_no_key_auth _ _ _ _ _ _ (by decide) (by decide) rfl).1 rfl

/-- C8 counterexample: with no API key and no resolvable user id but the
client-side mock gate active (here: `tradingMode` unset, defaulting to
`'mock'`), `sendOrderToAPI` does not throw any error — it returns the
empty record. -/
theorem sendOrderToAPI_missing_auth_counterexample :
    tradingSendOrderToAPI
      { signals := { destinationNode := none, nodeName := "Alpaca Markets"
                     mode := some "manual" }
        workflowActive := false
        settings := none
        resolverThrows := false
        parentNodeCount := 0
        inputItemKeyCounts := []
        refineChecksThrow := false
        refineFallbackThrows := false }
      { workflowId := some "wf-4", executionId := some "exec-4", userId := none
        executionMode := "production" }
      { apiBaseUrlArg := none, envBaseUrl := none, envApiKey := none }
      constOkTransport [("symbol", "AAPL")] .stock = .ok (none, []) := by
  rfl

/-- C9 (corrected): the division of labour is the reverse of the claim.
The client (`sendOrderToAPI`) itself catches a transport-level failure,
logs a warning and returns the empty record in its place (first conjunct:
for any failing transport the gated client still returns `Except.ok` with
an empty object, never the failure).  `trackOrder` adds no catching of its
own: when the mock gates let the call reach the auth check (trading mode
not `'mock'`/absent, context not execute-step), an error the client raises
before the network call propagates out of `trackOrder` unchanged (second
conjunct). -/
theorem tracking_failure_handling (st : HostState) (exec : TradingExecCtx)
    (api : ApiConfig) (transport : Transport) (orderData : DataObject)
    (orderType : OrderType) (e : String) (args : TrackArgs) :
    (lookupField orderData "executionContext" ≠ some "execute-step" →
     st.settingsTradingMode.getD "mock" ≠ "mock" →
     api.envApiKey ≠ none ∨ exec.userId ≠ none →
     ∃ req, tradingSendOrderToAPI st exec api (fun _ => Except.error e)
        orderData orderType = .ok (some req, [])) ∧
    (args.shouldMock = some false →
     args.orderExecutionContext = some .manualInactive →
     st.settingsTradingMode.getD "mock" ≠ "mock" →
     api.envApiKey = none → exec.userId = none →
     trackOrder st exec api transport args =
       .error "User ID not available in execution context and no API key configured. Cannot track order.") := by
  constructor
  · intro hg1 hg2 hauth
    rw [tradingSendOrderToAPI_not_mock st exec api _ orderData orderType hg1 hg2]
    unfold sendOrderToAPICore
    cases hkey : api.envApiKey with
    | some k =>
      cases huid : exec.userId with
      | none => exact ⟨_, rfl⟩
      | some u => exact ⟨_, rfl⟩
    | none =>
      rcases hauth with h | h
      · exact absurd hkey h
      · cases huid : exec.userId with
        | none => exact absurd huid h
        | some u => exact ⟨_, rfl⟩
  · intro h1 h2 htm hkey huid
    unfold trackOrder trackOrderEffectiveContext
    rw [h1, h2]
    have hmock : ((some OrderExecutionContext.manualInactive ==
        some OrderExecutionContext.executeStep) : Bool) = false := by decide
    dsimp only
    rw [hmock, if_neg (by simp)]
    refine (tradingSendOrderToAPI_not_mock _ _ _ _ _ _ ?_ htm).trans ?_
    · rw [lookupField_setFieldOpt_self]
      decide
    · unfold sendOrderToAPICore
      rw [hkey, huid]

theorem tracking_failure_handling_witness :
    trackOrder
      { signals := { destinationNode := none, nodeName := "Alpaca Markets"
                     mode := some "manual" }
        workflowActive := false
        settings := some { tradingMode := some "paper" }
        resolverThrows := false
        parentNodeCount := 1
        inputItemKeyCounts := [3]
        refineChecksThrow := false
        refineFallbackThrows := false }
      { workflowId := some "wf-5", executionId := some "exec-5", userId := none
        executionMode := "production" }
      { apiBaseUrlArg := none, envBaseUrl := none, envApiKey := none }
      constOkTransport
      { orderData := [("symbol", "AAPL")], orderType := .stock
        credentials := some [("environment", "paper")]
        orderExecutionContext := some .manualInactive
        shouldMock := some false } =
      .error "User ID not available in execution context and no API key configured. Cannot track order." :=
  (tracking_failure_handling _ _ _ constOkTransport [] .stock "ignored"
    { orderData := [("symbol", "AAPL")], orderType := .stock
      credentials := some [("environment", "paper")]
      orderExecutionContext := some .manualInactive
      shouldMock := some false }).2 rfl rfl (by decide) rfl rfl

/-- C9 counterexample: at a concrete input that reaches the network (paper
mode, API key configured) with a transport that fails, `sendOrderToAPI`
from `trading/trading-api-client.ts` does not surface the failure to its
caller: it returns a successful-looking empty record. -/
theorem sendOrderToAPI_swallow_counterexample :
    tradingSendOrderToAPI
      { signals := { destinationNode := none, nodeName := "N"
                     mode := some "trigger" }
        workflowActive := true
        settings := some { tradingMode := some "paper" }
        resolverThrows := false
        parentNodeCount := 0
        inputItemKeyCounts := []
        refineChecksThrow := false
        refineFallbackThrows := false }
      { workflowId := some "wf-1", executionId := some "exec-1"
        userId := some "user-1", executionMode := "production" }
      { apiBaseUrlArg := none, envBaseUrl := none
        envApiKey := some "service-key" }
      failTransport
      [("symbol", "AAPL"), ("executionContext", "active")] .stock =
      .ok
        (some
          { url := "http://127.0.0.1:3005/api/trading-orders/stock"
            headers := [("Content-Type", "application/json"),
              ("X-API-Key", "service-key"), ("X-User-Id", "user-1")]
            body := [("symbol", "AAPL"), ("workflowId", "wf-1"),
              ("executionId", "exec-1"), ("executionMode", "production"),
              ("executionContext", "active")] },
         []) := by
  rfl

/-- C4 (corrected): end-to-end characterisation of the mock path of
`trackOrder` composed with the gated client it imports.  The pipeline
returns the empty record with no HTTP request exactly when the explicit
`shouldMock` flag is `true`, or the effective (passed-in or re-derived)
execution context is `ExecuteStep`, or the workflow's `tradingMode` —
defaulted to `'mock'` when absent — is `'mock'`.  This subsumes the
claimed precedence (an explicit `true` wins; an explicit `false` cannot
disable the execute-step override) and corrects the claim in the two ways
the source forces: an absent `tradingMode` counts as `'mock'`
(`?? 'mock'`), and even when an explicit `false` flag suppresses
`trackOrder`'s own check, the client-side gate inside the imported
`sendOrderToAPI` still returns the empty record for mock-mode workflows
before any network I/O.  In every other case a request is issued (or the
client fails), never the silent empty record. -/
theorem trackOrder_mock_mode_iff (st : HostState) (exec : TradingExecCtx)
    (api : ApiConfig) (transport : Transport) (args : TrackArgs) :
    trackOrder st exec api transport args = .ok (none, []) ↔
      (args.shouldMock = some true ∨
       trackOrderEffectiveContext st args = some .executeStep ∨
       st.settingsTradingMode.getD "mock" = "mock") := by
  unfold trackOrder
  cases hsm : args.shouldMock with
  | none =>
    by_cases hes : trackOrderEffectiveContext st args = some .executeStep
    · simp [hes]
    · by_cases htm : st.settingsTradingMode.getD "mock" = "mock"
      · simp [hes, htm]
      · simp [hes, htm]
        rw [tradingSendOrderToAPI_ok_none_iff, lookupField_setFieldOpt_self,
          toStr_eq_executeStep_iff]
        simp [hes, htm]
  | some b =>
    cases b with
    | true => simp
    | false =>
      by_cases hes : trackOrderEffectiveContext st args = some .executeStep
      · simp [hes]
      · simp [hes]
        rw [tradingSendOrderToAPI_ok_none_iff, lookupField_setFieldOpt_self,
          toStr_eq_executeStep_iff]
        simp [hes]

/-- C4 counterexample: with the `shouldMock` flag unset, the context
`ManualInactive`, and the workflow's `tradingMode` setting absent (not
`'mock'`), `trackOrder` nevertheless takes the mock path and returns the
empty record without touching the network — the unset-flag fallback treats
an absent setting as `'mock'`, which the claim's "setting is 'mock'"
condition does not cover. -/
theorem trackOrder_mock_mode_counterexample :
    trackOrder
      { signals := { destinationNode := none, nodeName := "Alpaca Markets"
                     mode := some "manual" }
        workflowActive := false
        settings := none
        resolverThrows := false
        parentNodeCount := 1
        inputItemKeyCounts := [3]
        refineChecksThrow := false
        refineFallbackThrows := false }
      { workflowId := some "wf-6", executionId := some "exec-6"
        userId := some "user-6", executionMode := "production" }
      { apiBaseUrlArg := none, envBaseUrl := none, envApiKey := some "key" }
      constOkTransport
      { orderData := [("symbol", "AAPL")], orderType := .stock
        credentials := some [("environment", "live")]
        orderExecutionContext := some .manualInactive
        shouldMock := none } = .ok (none, []) ∧
    trackOrderEffectiveContext
      { signals := { destinationNode := none, nodeName := "Alpaca Markets"
                     mode := some "manual" }
        workflowActive := false
        settings := none
        resolverThrows := false
        parentNodeCount := 1
        inputItemKeyCounts := [3]
        refineChecksThrow := false
        refineFallbackThrows := false }
      { orderData := [("symbol", "AAPL")], orderType := .stock
        credentials := some [("environment", "live")]
        orderExecutionContext := some .manualInactive
        shouldMock := none } ≠ some .executeStep ∧
    HostState.settingsTradingMode
      { signals := { destinationNode := none, nodeName := "Alpaca Markets"
                     mode := some "manual" }
        workflowActive := false
        settings := none
        resolverThrows := false
        parentNodeCount := 1
        inputItemKeyCounts := [3]
        refineChecksThrow := false
        refineFallbackThrows := false } ≠ some "mock" :=
  ⟨rfl, by decide, by decide⟩

end TradingGate
